import Mathlib

/-!
# Verification of the card-fraud simulation core (`card_fraud.py`)

Shallow embedding of the simulation and query core of the repository
`hsiangjenli/card-fraud` (single source file `card_fraud.py`).  The program
keeps its state in a property-graph store (Memgraph) holding `Card`, `Pos`
and `Transaction` nodes, `Using` edges (Transaction → Card) and `At` edges
(Transaction → Pos).  Every state the program itself can build gives each
transaction exactly one `Using` and one `At` edge, so a graph state is
embedded as three node lists, with each transaction carrying the id of its
card and of its POS device (its two edges).

Randomness (`randint`, `random.sample`, the query-side `rand()`) is modelled
by oracle streams passed in as arguments: `cardDraws`/`posDraws` stand for
the successive `randint` results, `flips i` stands for the boolean outcome of
`rand() < report_pct` inside transaction `i`, and `selected` stands for the
list returned by `sample(range(pos_count), fraud_count)`.  `randint(0, m - 1)`
raises `ValueError` when `m = 0`; that failure is the `randintEmptyRange`
error, kept distinct from the `InvalidParameter` (HTTP 418) guard answer of
`generate_data`.
-/

namespace CardFraud

/-- A `:Card` node: `{id: integer, compromised: boolean}`. -/
structure Card where
  id : Nat
  compromised : Bool
  deriving DecidableEq

/-- A `:Pos` node: `{id: integer, compromised: boolean}`. -/
structure Pos where
  id : Nat
  compromised : Bool
  deriving DecidableEq

/-- A `:Transaction` node together with its two edges, fixed at creation:
`cardId` is the target of its `Using` edge and `posId` the target of its
`At` edge. -/
structure Transaction where
  id : Nat
  cardId : Nat
  posId : Nat
  fraudReported : Bool
  deriving DecidableEq

/-- The whole graph store: all `Card`, `Pos` and `Transaction` nodes. -/
structure GraphState where
  cards : List Card
  poses : List Pos
  transactions : List Transaction
  deriving DecidableEq

/-- The store right after `drop_database`. -/
def emptyGraph : GraphState := { cards := [], poses := [], transactions := [] }

/-- Errors surfaced by `generate_data`: the explicit HTTP-418 guard answer
("There can't be more frauds than devices"), and the Python `ValueError`
raised by `randint(0, -1)` when a draw range is empty. -/
inductive GenError where
  | invalidParameter
  | randintEmptyRange
  deriving DecidableEq

/-- `MATCH (c:Card {id: cid})`: the card node bound by the pattern. -/
def findCard (s : GraphState) (cid : Nat) : Option Card :=
  s.cards.find? (fun c => c.id == cid)

/-- `MATCH (p:Pos {id: pid})`: the POS node bound by the pattern. -/
def findPos (s : GraphState) (pid : Nat) : Option Pos :=
  s.poses.find? (fun p => p.id == pid)

/-- `init_data` (`card_fraud.py` lines 54-66): `UNWIND range(0, card_count - 1)
AS id CREATE (:Card {id: id, compromised: false})` — `range` is inclusive on
both ends, so it yields ids `0 .. card_count - 1` and nothing when the count
is `0` — and the same for `:Pos` nodes.  The statements `CREATE` into
whatever store contents exist, hence the append. -/
def initCards (cardCount : Nat) : List Card :=
  (List.range cardCount).map (fun i => { id := i, compromised := false })

/-- The `:Pos` half of `init_data`. -/
def initPoses (posCount : Nat) : List Pos :=
  (List.range posCount).map (fun i => { id := i, compromised := false })

/-- The whole of `init_data`: both `UNWIND ... CREATE` statements. -/
def init_data (s : GraphState) (cardCount posCount : Nat) : GraphState :=
  { s with
    cards := s.cards ++ initCards cardCount,
    poses := s.poses ++ initPoses posCount }

/-- `compromise_pos` (lines 71-76):
`MATCH (p:Pos {id: pos_id}) SET p.compromised = true`. -/
def compromise_pos (s : GraphState) (posId : Nat) : GraphState :=
  { s with
    poses := s.poses.map (fun p =>
      if p.id == posId then { p with compromised := true } else p) }

/-- `compromise_pos_devices` (lines 79-90): marks each POS id returned by
`sample(range(pos_count), fraud_count)` as compromised, one statement per id.
The sampled list is the `selected` oracle argument. -/
def compromise_pos_devices (s : GraphState) (selected : List Nat) : GraphState :=
  List.foldl compromise_pos s selected

/-- One iteration of the `pump_transactions` loop (lines 103-113), i.e. one
execution of the statement

    MATCH (c:Card {id: cid}), (p:Pos {id: pid})
    CREATE (t:Transaction {id: i, fraudReported: c.compromised AND (rand() < report_pct)})
    CREATE (c)<-[:Using]-(t)-[:At]->(p)
    SET c.compromised = p.compromised

In Cypher the `SET` clause runs after the `CREATE`s of the same statement,
and property reads inside `CREATE` see the pre-`SET` value, so the new
transaction's `fraudReported` uses the card's compromised flag as it stood
when the card was matched, before the propagation `SET`.  `b` is the oracle
outcome of `rand() < report_pct`.  When either pattern finds no node the
statement matches no row and changes nothing. -/
def tx_step (s : GraphState) (i cid pid : Nat) (b : Bool) : GraphState :=
  match findCard s cid, findPos s pid with
  | some c, some p =>
    { cards := s.cards.map (fun c2 =>
        if c2.id == cid then { c2 with compromised := p.compromised } else c2),
      poses := s.poses,
      transactions := s.transactions ++
        [{ id := i, cardId := cid, posId := pid,
           fraudReported := c.compromised && b }] }
  | _, _ => s

/-- `def rint(max): return randint(0, max - 1)` (line 109): `randint` on an
empty range (`max = 0`) raises `ValueError`; otherwise the draw is the next
oracle value, a number in `[0, max)`. -/
def rint (max : Nat) (draw : Nat) : Except GenError Nat :=
  if max = 0 then Except.error GenError.randintEmptyRange else Except.ok draw

/-- The `for i in range(tx_count)` loop of `pump_transactions` over the list
of remaining indices: both `rint` draws are evaluated (card first, exactly as
Python evaluates the arguments of `query.format`), an error aborts the loop
leaving the store as it stands, otherwise `tx_step` runs and the loop
continues. -/
def pumpFrom (cardCount posCount : Nat) (cardDraws posDraws : Nat → Nat)
    (flips : Nat → Bool) : GraphState → List Nat → GraphState × Option GenError
  | s, [] => (s, none)
  | s, i :: rest =>
    match rint cardCount (cardDraws i) with
    | Except.error e => (s, some e)
    | Except.ok cd =>
      match rint posCount (posDraws i) with
      | Except.error e => (s, some e)
      | Except.ok pd =>
        pumpFrom cardCount posCount cardDraws posDraws flips
          (tx_step s i cd pd (flips i)) rest

/-- `pump_transactions` (lines 93-116): runs the per-transaction statement for
`i = 0, 1, ..., tx_count - 1`.  Returns the resulting store together with the
error, if any, that aborted the loop. -/
def pump_transactions (s : GraphState) (cardCount posCount txCount : Nat)
    (cardDraws posDraws : Nat → Nat) (flips : Nat → Bool) :
    GraphState × Option GenError :=
  pumpFrom cardCount posCount cardDraws posDraws flips s (List.range txCount)

/-- `memgraph.drop_database()`. -/
def drop_database (_s : GraphState) : GraphState := emptyGraph

/-- The JSON body of a `/generate-data` request: `cards`, `pos`,
`transactions`, `frauds` (the `reports` probability acts only through the
`flips` oracle). -/
structure GenInput where
  cards : Nat
  pos : Nat
  transactions : Nat
  frauds : Nat
  deriving DecidableEq

/-- `generate_data` (lines 184-211): if `data['pos'] < data['frauds']` it
answers HTTP 418 (`InvalidParameter`) touching nothing; otherwise it runs
`drop_database`, `init_data`, `compromise_pos_devices`, `pump_transactions`
in that order.  The pair returned is the store state when the handler
finishes (or aborts) together with the error, if any. -/
def generate_data (s : GraphState) (inp : GenInput) (selected : List Nat)
    (cardDraws posDraws : Nat → Nat) (flips : Nat → Bool) :
    GraphState × Option GenError :=
  if inp.pos < inp.frauds then (s, some GenError.invalidParameter)
  else
    pump_transactions
      (compromise_pos_devices (init_data (drop_database s) inp.cards inp.pos)
        selected)
      inp.cards inp.pos inp.transactions cardDraws posDraws flips

/-- `resolve_pos` (lines 119-139), i.e. the statement

    MATCH (p:Pos {id: pid}) SET p.compromised = false
    WITH p MATCH (p)--(t:Transaction)--(c:Card)
    SET t.fraudReported = false, c.compromised = false

If no POS node carries the id, the statement matches no row and nothing
changes.  Otherwise the POS is cleared, and — since in every state this
program builds the only edges at a `Transaction` are its `At` edge to its POS
and its `Using` edge to its card, which is what the untyped `--` steps can
traverse — exactly the transactions whose `At` edge points to the POS get
`fraudReported := false`, and exactly the cards reached from such a
transaction over its `Using` edge get `compromised := false`. -/
def resolve_pos (s : GraphState) (pid : Nat) : GraphState :=
  if s.poses.any (fun p => p.id == pid) then
    { cards := s.cards.map (fun c =>
        if s.transactions.any (fun t => t.posId == pid && t.cardId == c.id)
        then { c with compromised := false } else c),
      poses := s.poses.map (fun p =>
        if p.id == pid then { p with compromised := false } else p),
      transactions := s.transactions.map (fun t =>
        if t.posId == pid then { t with fraudReported := false } else t) }
  else s

/-- The rows produced by the `get_compromised_pos` pattern (lines 149-153):

    MATCH (t:Transaction {fraudReported: true})-[:Using]->(:Card)
          <-[:Using]-(:Transaction)-[:At]->(p:Pos)

One row per binding `(p, t1, t2)` with `t1.fraudReported`, `t1` and `t2`
using the same existing card node, and `t2`'s `At` edge pointing at `p`.
Cypher's relationship-uniqueness rule forbids the two `Using` edges of the
pattern from coinciding; as every transaction owns exactly one `Using` edge
this is transaction distinctness, expressed here on ids (unique in every
state this program builds).  Each row is recorded as `(p.id, t1, t2)`. -/
def fraudRows (s : GraphState) : List (Nat × Transaction × Transaction) :=
  s.poses.flatMap (fun p =>
    s.transactions.flatMap (fun t1 =>
      (s.transactions.filter (fun t2 =>
          t1.fraudReported && t1.cardId == t2.cardId && t1.id != t2.id
            && t2.posId == p.id
            && s.cards.any (fun c => c.id == t1.cardId))).map
        (fun t2 => (p.id, t1, t2))))

/-- `WITH p.id as pos, count(t) as connected_frauds`: the number of rows in
the group of the POS id. -/
def connected_frauds (s : GraphState) (posId : Nat) : Nat :=
  (fraudRows s).countP (fun r => r.1 == posId)

/-- Descending order on the `connected_frauds` column
(`ORDER BY connected_frauds DESC`). -/
def countGE (a b : Nat × Nat) : Prop := b.2 ≤ a.2

instance : DecidableRel countGE :=
  fun a b => inferInstanceAs (Decidable (b.2 ≤ a.2))

instance : IsTotal (Nat × Nat) countGE :=
  ⟨fun a b => Nat.le_total b.2 a.2⟩

instance : IsTrans (Nat × Nat) countGE :=
  ⟨fun _ _ _ h1 h2 => Nat.le_trans h2 h1⟩

/-- `get_compromised_pos` (lines 142-159): group the rows by POS id, keep the
groups with `connected_frauds > 1`, return `(pos, connected_frauds)` ordered
by count descending. -/
def get_compromised_pos (s : GraphState) : List (Nat × Nat) :=
  ((((fraudRows s).map (fun r => r.1)).dedup.map
      (fun pid => (pid, connected_frauds s pid))).filter
    (fun pr => 1 < pr.2)).insertionSort countGE

/-- `get_fraudulent_transactions` (lines 162-181):
`MATCH (t:Transaction {fraudReported: true}) RETURN t.id as id`. -/
def get_fraudulent_transactions (s : GraphState) : List Nat :=
  (s.transactions.filter (fun t => t.fraudReported)).map Transaction.id

/-! ## Helper lemmas -/

/-- When both patterns of the per-transaction statement match, the statement
rewrites the store exactly as the three Cypher clauses dictate. -/
theorem tx_step_found (s : GraphState) (i cid pid : Nat) (b : Bool) (c : Card)
    (p : Pos) (hc : findCard s cid = some c) (hp : findPos s pid = some p) :
    tx_step s i cid pid b =
      { cards := s.cards.map (fun c2 =>
          if c2.id == cid then { c2 with compromised := p.compromised } else c2),
        poses := s.poses,
        transactions := s.transactions ++
          [{ id := i, cardId := cid, posId := pid,
             fraudReported := c.compromised && b }] } := by
  unfold tx_step
  rw [hc, hp]

/-- The per-transaction statement never changes which card ids exist, and
never touches the POS nodes. -/
theorem tx_step_ids (s : GraphState) (i cid pid : Nat) (b : Bool) :
    (tx_step s i cid pid b).cards.map Card.id = s.cards.map Card.id ∧
    (tx_step s i cid pid b).poses = s.poses := by
  unfold tx_step
  rcases hfc : findCard s cid with _ | c
  · exact ⟨rfl, rfl⟩
  rcases hfp : findPos s pid with _ | p
  · exact ⟨rfl, rfl⟩
  refine ⟨?_, rfl⟩
  simp only [List.map_map]
  apply List.map_congr_left
  intro c2 _
  by_cases h : c2.id = cid <;> simp [h]

/-- A card id listed among the store's card ids is found by
`MATCH (c:Card {id: cid})`, and the node found carries that id. -/
theorem findCard_of_mem (s : GraphState) (cid : Nat)
    (h : cid ∈ s.cards.map Card.id) :
    ∃ c, findCard s cid = some c ∧ c.id = cid := by
  obtain ⟨c, hc, hid⟩ := List.mem_map.mp h
  have hsome : (s.cards.find? (fun c => c.id == cid)).isSome := by
    rw [List.find?_isSome]
    exact ⟨c, hc, by simp [hid]⟩
  obtain ⟨c0, hc0⟩ := Option.isSome_iff_exists.mp hsome
  refine ⟨c0, hc0, ?_⟩
  have := List.find?_some hc0
  exact eq_of_beq this

/-- A POS id listed among the store's POS ids is found by
`MATCH (p:Pos {id: pid})`, and the node found carries that id. -/
theorem findPos_of_mem (s : GraphState) (pid : Nat)
    (h : pid ∈ s.poses.map Pos.id) :
    ∃ p, findPos s pid = some p ∧ p.id = pid := by
  obtain ⟨p, hp, hid⟩ := List.mem_map.mp h
  have hsome : (s.poses.find? (fun p => p.id == pid)).isSome := by
    rw [List.find?_isSome]
    exact ⟨p, hp, by simp [hid]⟩
  obtain ⟨p0, hp0⟩ := Option.isSome_iff_exists.mp hsome
  refine ⟨p0, hp0, ?_⟩
  have := List.find?_some hp0
  exact eq_of_beq this

/-- The identifying part of a transaction node: its id and its two edges. -/
def txProj (t : Transaction) : Nat × Nat × Nat := (t.id, t.cardId, t.posId)

/-- Loop invariant of `pump_transactions`: when every draw for the remaining
indices is in range and every drawable id has a node, the loop succeeds,
appends one transaction per index carrying exactly the drawn edges, keeps the
card ids intact and leaves the POS nodes untouched. -/
theorem pumpFrom_ok (cardCount posCount : Nat) (cardDraws posDraws : Nat → Nat)
    (flips : Nat → Bool) (L : List Nat) :
    ∀ s : GraphState,
      (∀ i ∈ L, cardDraws i < cardCount) →
      (∀ i ∈ L, posDraws i < posCount) →
      (∀ cid, cid < cardCount → cid ∈ s.cards.map Card.id) →
      (∀ pid, pid < posCount → pid ∈ s.poses.map Pos.id) →
      (pumpFrom cardCount posCount cardDraws posDraws flips s L).2 = none ∧
      (pumpFrom cardCount posCount cardDraws posDraws flips s L).1.transactions.map txProj =
        s.transactions.map txProj ++ L.map (fun i => (i, cardDraws i, posDraws i)) ∧
      (pumpFrom cardCount posCount cardDraws posDraws flips s L).1.cards.map Card.id =
        s.cards.map Card.id ∧
      (pumpFrom cardCount posCount cardDraws posDraws flips s L).1.poses = s.poses := by
  induction L with
  | nil =>
    intro s _ _ _ _
    simp [pumpFrom]
  | cons i rest ih =>
    intro s hcd hpd hcards hposes
    have hci : cardDraws i < cardCount := hcd i (List.mem_cons_self i rest)
    have hpi : posDraws i < posCount := hpd i (List.mem_cons_self i rest)
    have hcc : cardCount ≠ 0 := Nat.pos_iff_ne_zero.mp (Nat.lt_of_le_of_lt (Nat.zero_le _) hci)
    have hpc : posCount ≠ 0 := Nat.pos_iff_ne_zero.mp (Nat.lt_of_le_of_lt (Nat.zero_le _) hpi)
    obtain ⟨c, hfc, _⟩ := findCard_of_mem s (cardDraws i) (hcards _ hci)
    obtain ⟨p, hfp, _⟩ := findPos_of_mem s (posDraws i) (hposes _ hpi)
    have hstep := tx_step_found s i (cardDraws i) (posDraws i) (flips i) c p hfc hfp
    have hids := tx_step_ids s i (cardDraws i) (posDraws i) (flips i)
    have hrec :
        pumpFrom cardCount posCount cardDraws posDraws flips s (i :: rest) =
          pumpFrom cardCount posCount cardDraws posDraws flips
            (tx_step s i (cardDraws i) (posDraws i) (flips i)) rest := by
      simp [pumpFrom, rint, hcc, hpc]
    rw [hrec]
    have ihs := ih (tx_step s i (cardDraws i) (posDraws i) (flips i))
      (fun j hj => hcd j (List.mem_cons_of_mem i hj))
      (fun j hj => hpd j (List.mem_cons_of_mem i hj))
      (fun cid hcid => hids.1 ▸ hcards cid hcid)
      (fun pid hpid => hids.2 ▸ hposes pid hpid)
    refine ⟨ihs.1, ?_, ?_, ?_⟩
    · rw [ihs.2.1, hstep]
      simp [txProj]
    · rw [ihs.2.2.1, hids.1]
    · rw [ihs.2.2.2, hids.2]

/-! ## Claim theorems -/

/-- C1, counterexample: compromise propagation is not sticky.  The store
holds one card (id 0, compromised) and one POS device (id 1, not
compromised); the per-transaction propagation step for a transaction using
that card at that POS sets the card's `compromised` flag back to `false`,
because the statement executes `SET c.compromised = p.compromised` — an
assignment, not a disjunction. -/
theorem tx_step_unsticky_cex :
    (tx_step { cards := [{ id := 0, compromised := true }],
               poses := [{ id := 1, compromised := false }],
               transactions := [] } 0 0 1 false).cards =
      [{ id := 0, compromised := false }] := by decide

/-- C1, amended: the per-transaction propagation step sets the compromised
flag of the card bound by the pattern equal to the POS device's compromised
flag.  A clean card touched at a compromised device becomes compromised, but
a compromised card touched at a clean device is set back to `false`:
propagation is an assignment, not sticky, and card compromise is monotonic
only across transactions whose POS device is compromised. -/
theorem tx_step_sets_flag (s : GraphState) (i cid pid : Nat) (b : Bool)
    (c : Card) (p : Pos) (hc : findCard s cid = some c)
    (hp : findPos s pid = some p) :
    ((tx_step s i cid pid b).cards = s.cards.map (fun c2 =>
        if c2.id == cid then { c2 with compromised := p.compromised } else c2)) ∧
    (p.compromised = true →
      ∀ c2 ∈ (tx_step s i cid pid b).cards, c2.id = cid → c2.compromised = true) ∧
    (p.compromised = false →
      ∀ c2 ∈ (tx_step s i cid pid b).cards, c2.id = cid → c2.compromised = false) := by
  have hcards : (tx_step s i cid pid b).cards = s.cards.map (fun c2 =>
      if c2.id == cid then { c2 with compromised := p.compromised } else c2) := by
    rw [tx_step_found s i cid pid b c p hc hp]
  refine ⟨hcards, ?_, ?_⟩ <;>
    · intro hflag c2 hmem hid
      rw [hcards] at hmem
      obtain ⟨c0, _, rfl⟩ := List.mem_map.mp hmem
      by_cases h0 : c0.id = cid
      · simp [h0, hflag]
      · simp [h0] at hid

/-- C1 witness: on the concrete counterexample store the amended theorem
applies and yields the cleaned flag of the card. -/
theorem tx_step_sets_flag_witness :
    ({ id := 0, compromised := false } : Card).compromised = false :=
  (tx_step_sets_flag { cards := [{ id := 0, compromised := true }],
                       poses := [{ id := 1, compromised := false }],
                       transactions := [] }
      0 0 1 false { id := 0, compromised := true } { id := 1, compromised := false }
      (by decide) (by decide)).2.2 rfl
    { id := 0, compromised := false } (by decide) rfl

/-- C2: the transaction created by the per-transaction statement carries
`fraudReported = (card compromised at draw time) && (Bernoulli flip)`, where
the card flag is the one read when the card was matched — before the `SET`
of the same statement propagates the POS flag onto the card.  In particular
a card that is clean at draw time yields `fraudReported = false` whatever
the POS flag is, so a card freshly compromised by this very transaction
cannot trigger a fraud report in the same step. -/
theorem tx_step_fraud_pre_propagation (s : GraphState) (i cid pid : Nat)
    (b : Bool) (c : Card) (p : Pos) (hc : findCard s cid = some c)
    (hp : findPos s pid = some p) :
    ((tx_step s i cid pid b).transactions = s.transactions ++
      [{ id := i, cardId := cid, posId := pid,
         fraudReported := c.compromised && b }]) ∧
    (c.compromised = false →
      (tx_step s i cid pid b).transactions = s.transactions ++
        [{ id := i, cardId := cid, posId := pid, fraudReported := false }]) := by
  have h : (tx_step s i cid pid b).transactions = s.transactions ++
      [{ id := i, cardId := cid, posId := pid,
         fraudReported := c.compromised && b }] := by
    rw [tx_step_found s i cid pid b c p hc hp]
  refine ⟨h, fun hclean => ?_⟩
  rw [h, hclean]
  simp

/-- C2 witness: a clean card (id 0) at a compromised POS (id 0), with the
Bernoulli flip succeeding: the created transaction still carries
`fraudReported = false`, even though the same step compromises the card. -/
theorem tx_step_fraud_pre_propagation_witness :
    (tx_step { cards := [{ id := 0, compromised := false }],
               poses := [{ id := 0, compromised := true }],
               transactions := [] } 0 0 0 true).transactions =
      [] ++ [{ id := 0, cardId := 0, posId := 0, fraudReported := false }] :=
  (tx_step_fraud_pre_propagation
      { cards := [{ id := 0, compromised := false }],
        poses := [{ id := 0, compromised := true }],
        transactions := [] }
      0 0 0 true { id := 0, compromised := false } { id := 0, compromised := true }
      (by decide) (by decide)).2 rfl

/-- C8: against the empty graph, `init_data` creates exactly `cardCount`
Card nodes whose ids are `0, 1, ..., cardCount - 1` in order and exactly
`posCount` POS nodes whose ids are `0, 1, ..., posCount - 1` in order, every
one with `compromised = false`, and no transactions; with a count of `0` no
node of that kind is created, since `UNWIND range(0, -1)` yields nothing. -/
theorem init_data_spec (cardCount posCount : Nat) :
    ((init_data emptyGraph cardCount posCount).cards.length = cardCount) ∧
    ((init_data emptyGraph cardCount posCount).cards.map Card.id =
      List.range cardCount) ∧
    (∀ c ∈ (init_data emptyGraph cardCount posCount).cards,
      c.compromised = false) ∧
    ((init_data emptyGraph cardCount posCount).poses.length = posCount) ∧
    ((init_data emptyGraph cardCount posCount).poses.map Pos.id =
      List.range posCount) ∧
    (∀ p ∈ (init_data emptyGraph cardCount posCount).poses,
      p.compromised = false) ∧
    ((init_data emptyGraph cardCount posCount).transactions = []) := by
  refine ⟨?_, ?_, ?_, ?_, ?_, ?_, rfl⟩
  · simp [init_data, emptyGraph, initCards]
  · simp only [init_data, emptyGraph, List.nil_append, initCards, List.map_map]
    exact List.map_id'' (fun _ => rfl) _
  · intro c hc
    simp only [init_data, emptyGraph, List.nil_append, initCards] at hc
    obtain ⟨j, _, rfl⟩ := List.mem_map.mp hc
    rfl
  · simp [init_data, emptyGraph, initPoses]
  · simp only [init_data, emptyGraph, List.nil_append, initPoses, List.map_map]
    exact List.map_id'' (fun _ => rfl) _
  · intro p hp
    simp only [init_data, emptyGraph, List.nil_append, initPoses] at hp
    obtain ⟨j, _, rfl⟩ := List.mem_map.mp hp
    rfl

/-- C8 witness: the second card created by `init_data emptyGraph 2 3` is
uncompromised. -/
theorem init_data_spec_witness :
    ({ id := 1, compromised := false } : Card).compromised = false :=
  (init_data_spec 2 3).2.2.1 { id := 1, compromised := false } (by decide)

/-- C3: `generate_data` with `fraudCount > posCount` answers
`InvalidParameter` and returns the store exactly as it received it — no
drop, no node creation, no compromise seeding; with `fraudCount ≤ posCount`
it instead runs drop-all, initialize, compromise-select and generate, in
that order. -/
theorem generate_data_guard_and_order (s : GraphState) (inp : GenInput)
    (selected : List Nat) (cardDraws posDraws : Nat → Nat) (flips : Nat → Bool) :
    (inp.pos < inp.frauds →
      generate_data s inp selected cardDraws posDraws flips =
        (s, some GenError.invalidParameter)) ∧
    (inp.frauds ≤ inp.pos →
      generate_data s inp selected cardDraws posDraws flips =
        pump_transactions
          (compromise_pos_devices (init_data (drop_database s) inp.cards inp.pos)
            selected)
          inp.cards inp.pos inp.transactions cardDraws posDraws flips) := by
  constructor
  · intro h
    simp [generate_data, h]
  · intro h
    simp [generate_data, Nat.not_lt.mpr h]

/-- C3 witness: a request with 2 frauds over 1 POS device against a
non-empty store is answered with `InvalidParameter` and the store is
untouched. -/
theorem generate_data_guard_and_order_witness :
    generate_data { cards := [{ id := 0, compromised := true }],
                    poses := [{ id := 0, compromised := false }],
                    transactions := [] }
        { cards := 1, pos := 1, transactions := 1, frauds := 2 } []
        (fun _ => 0) (fun _ => 0) (fun _ => false) =
      ({ cards := [{ id := 0, compromised := true }],
         poses := [{ id := 0, compromised := false }],
         transactions := [] }, some GenError.invalidParameter) :=
  (generate_data_guard_and_order
      { cards := [{ id := 0, compromised := true }],
        poses := [{ id := 0, compromised := false }],
        transactions := [] }
      { cards := 1, pos := 1, transactions := 1, frauds := 2 } []
      (fun _ => 0) (fun _ => 0) (fun _ => false)).1 (by decide)

/-- C9: with every card id below `cardCount` and every POS id below
`posCount` present (and no transaction yet, as after initialization), and
with the `randint` draw streams in range — `randint(0, m - 1)` only ever
yields values in `[0, m)` — `pump_transactions` succeeds and creates exactly
`txCount` transactions with sequential ids `0, 1, ..., txCount - 1`, where
transaction `i` carries one `Using` edge to the drawn card `cardDraws i` and
one `At` edge to the drawn POS `posDraws i`, each draw independent of the
others and with replacement (the streams are unconstrained across
indices), and every created edge target lies in range. -/
theorem pump_transactions_spec (s : GraphState) (cardCount posCount txCount : Nat)
    (cardDraws posDraws : Nat → Nat) (flips : Nat → Bool)
    (hcd : ∀ i, cardDraws i < cardCount) (hpd : ∀ i, posDraws i < posCount)
    (hcards : ∀ cid, cid < cardCount → cid ∈ s.cards.map Card.id)
    (hposes : ∀ pid, pid < posCount → pid ∈ s.poses.map Pos.id)
    (htx : s.transactions = []) :
    ((pump_transactions s cardCount posCount txCount cardDraws posDraws flips).2 =
      none) ∧
    ((pump_transactions s cardCount posCount txCount cardDraws posDraws
        flips).1.transactions.map txProj =
      (List.range txCount).map (fun i => (i, cardDraws i, posDraws i))) ∧
    (∀ t ∈ (pump_transactions s cardCount posCount txCount cardDraws posDraws
        flips).1.transactions, t.cardId < cardCount ∧ t.posId < posCount) := by
  have h := pumpFrom_ok cardCount posCount cardDraws posDraws flips
    (List.range txCount) s (fun i _ => hcd i) (fun i _ => hpd i) hcards hposes
  unfold pump_transactions
  refine ⟨h.1, ?_, ?_⟩
  · rw [h.2.1, htx]
    rfl
  · intro t ht
    have hmem := List.mem_map_of_mem txProj ht
    rw [h.2.1, htx] at hmem
    simp only [List.map_nil, List.nil_append, List.mem_map, List.mem_range] at hmem
    obtain ⟨i, _, heq⟩ := hmem
    obtain ⟨_, hcid, hpid⟩ : i = t.id ∧ cardDraws i = t.cardId ∧ posDraws i = t.posId := by
      simpa [txProj, Prod.ext_iff] using heq
    exact ⟨hcid ▸ hcd i, hpid ▸ hpd i⟩

/-- C9 witness: two cards, three POS devices, two transactions, draws
`i % 2` and `i % 3`: the run succeeds and creates transactions `0` and `1`
with exactly the drawn edges. -/
theorem pump_transactions_spec_witness :
    ((pump_transactions
        { cards := [{ id := 0, compromised := false },
                    { id := 1, compromised := true }],
          poses := [{ id := 0, compromised := true },
                    { id := 1, compromised := false },
                    { id := 2, compromised := false }],
          transactions := [] }
        2 3 2 (fun i => i % 2) (fun i => i % 3) (fun _ => true)).2 = none) ∧
    ((pump_transactions
        { cards := [{ id := 0, compromised := false },
                    { id := 1, compromised := true }],
          poses := [{ id := 0, compromised := true },
                    { id := 1, compromised := false },
                    { id := 2, compromised := false }],
          transactions := [] }
        2 3 2 (fun i => i % 2) (fun i => i % 3) (fun _ => true)).1.transactions.map
      txProj = (List.range 2).map (fun i => (i, i % 2, i % 3))) :=
  ⟨(pump_transactions_spec
      { cards := [{ id := 0, compromised := false },
                  { id := 1, compromised := true }],
        poses := [{ id := 0, compromised := true },
                  { id := 1, compromised := false },
                  { id := 2, compromised := false }],
        transactions := [] }
      2 3 2 (fun i => i % 2) (fun i => i % 3) (fun _ => true)
      (fun i => Nat.mod_lt i (by decide)) (fun i => Nat.mod_lt i (by decide))
      (by decide) (by decide) rfl).1,
   (pump_transactions_spec
      { cards := [{ id := 0, compromised := false },
                  { id := 1, compromised := true }],
        poses := [{ id := 0, compromised := true },
                  { id := 1, compromised := false },
                  { id := 2, compromised := false }],
        transactions := [] }
      2 3 2 (fun i => i % 2) (fun i => i % 3) (fun _ => true)
      (fun i => Nat.mod_lt i (by decide)) (fun i => Nat.mod_lt i (by decide))
      (by decide) (by decide) rfl).2.1⟩

/-- C10: the input `cards = 0, pos = 1, transactions = 1, frauds = 0` passes
the `pos < frauds` guard (`frauds ≤ pos`), so `generate_data` drops the
store and initializes it, and only then the first loop iteration of
`pump_transactions` evaluates `rint(0) = randint(0, -1)`, which raises (the
`randintEmptyRange` error, not `InvalidParameter`).  The store returned is
the freshly initialized one — zero cards, one clean POS, no transactions —
not the store the handler received: the drop-all and initialization
mutations have already been applied when the error escapes. -/
theorem generate_data_empty_range :
    (generate_data
        { cards := [{ id := 0, compromised := true }],
          poses := [{ id := 0, compromised := true }],
          transactions := [{ id := 0, cardId := 0, posId := 0, fraudReported := true }] }
        { cards := 0, pos := 1, transactions := 1, frauds := 0 } []
        (fun _ => 0) (fun _ => 0) (fun _ => false) =
      ({ cards := [], poses := [{ id := 0, compromised := false }], transactions := [] },
        some GenError.randintEmptyRange)) ∧
    (({ cards := [], poses := [{ id := 0, compromised := false }], transactions := [] } :
        GraphState) ≠
      { cards := [{ id := 0, compromised := true }],
        poses := [{ id := 0, compromised := true }],
        transactions := [{ id := 0, cardId := 0, posId := 0, fraudReported := true }] }) :=
  ⟨by decide, by decide⟩

/-- C4, counterexample: one card (id 0), two POS devices; transaction 0 uses
card 0 at POS 0, transaction 1 uses the same card 0 at POS 1, both fraud
reported.  After `ResolvePos(0)`, transaction 1 — which touches POS 0's card
0, but at the other POS device — still has `fraudReported = true`: the
resolve statement only reaches transactions adjacent to POS 0 itself, not
transactions linked to its cards at other POS devices. -/
theorem resolve_pos_cross_pos_cex :
    resolve_pos
        { cards := [{ id := 0, compromised := true }],
          poses := [{ id := 0, compromised := true },
                    { id := 1, compromised := false }],
          transactions := [{ id := 0, cardId := 0, posId := 0, fraudReported := true },
                           { id := 1, cardId := 0, posId := 1, fraudReported := true }] }
        0 =
      { cards := [{ id := 0, compromised := false }],
        poses := [{ id := 0, compromised := false },
                  { id := 1, compromised := false }],
        transactions := [{ id := 0, cardId := 0, posId := 0, fraudReported := false },
                         { id := 1, cardId := 0, posId := 1, fraudReported := true }] } := by
  decide

/-- C4, amended: after `ResolvePos(p)` for an existing POS id `p`, the POS
devices with id `p` have `compromised = false`, every card reachable from
`p` via some transaction has `compromised = false`, and every transaction
linked to `p` itself by an `At` edge has `fraudReported = false`
(transactions touching those cards at other POS devices may keep
`fraudReported = true`). -/
theorem resolve_pos_clears_local (s : GraphState) (pid : Nat)
    (hp : s.poses.any (fun p => p.id == pid) = true) :
    (∀ p ∈ (resolve_pos s pid).poses, p.id = pid → p.compromised = false) ∧
    (∀ t ∈ (resolve_pos s pid).transactions, t.posId = pid → t.fraudReported = false) ∧
    (∀ c ∈ (resolve_pos s pid).cards,
      (∃ t ∈ s.transactions, t.posId = pid ∧ t.cardId = c.id) →
        c.compromised = false) := by
  unfold resolve_pos
  rw [if_pos hp]
  refine ⟨?_, ?_, ?_⟩
  · intro p hmem hid
    obtain ⟨p0, _, rfl⟩ := List.mem_map.mp hmem
    by_cases h0 : p0.id = pid
    · simp [h0]
    · simp [h0] at hid
  · intro t hmem hid
    obtain ⟨t0, _, rfl⟩ := List.mem_map.mp hmem
    by_cases h0 : t0.posId = pid
    · simp [h0]
    · simp [h0] at hid
  · intro c hmem hex
    obtain ⟨c0, _, rfl⟩ := List.mem_map.mp hmem
    have hid : (if s.transactions.any (fun t => t.posId == pid && t.cardId == c0.id)
        then { c0 with compromised := false } else c0).id = c0.id := by
      by_cases h0 : s.transactions.any (fun t => t.posId == pid && t.cardId == c0.id) = true <;>
        simp [h0]
    rw [hid] at hex
    have hB : s.transactions.any (fun t => t.posId == pid && t.cardId == c0.id) = true := by
      simp only [List.any_eq_true, Bool.and_eq_true, beq_iff_eq]
      obtain ⟨t, ht, h1, h2⟩ := hex
      exact ⟨t, ht, h1, h2⟩
    simp [hB]

/-- C4 witness: on a store with one card, one POS and one transaction at
that POS, `ResolvePos(0)` yields `fraudReported = false` on the
transaction. -/
theorem resolve_pos_clears_local_witness :
    ({ id := 0, cardId := 0, posId := 0, fraudReported := false } :
      Transaction).fraudReported = false :=
  (resolve_pos_clears_local
      { cards := [{ id := 0, compromised := true }],
        poses := [{ id := 0, compromised := true }],
        transactions := [{ id := 0, cardId := 0, posId := 0, fraudReported := true }] }
      0 (by decide)).2.1
    { id := 0, cardId := 0, posId := 0, fraudReported := false } (by decide) rfl

/-- C5: for an existing POS id `p`, `ResolvePos(p)` performs exactly these
state changes: every POS node with id `p` gets `compromised := false`; every
transaction whose `At` edge points at `p` gets `fraudReported := false` and
the card its `Using` edge points at gets `compromised := false`; every other
node is returned unchanged, no node is created or removed, and no id or
edge is altered. -/
theorem resolve_pos_exact_effect (s : GraphState) (pid : Nat)
    (hp : s.poses.any (fun p => p.id == pid) = true) :
    ((resolve_pos s pid).poses.length = s.poses.length ∧
     (resolve_pos s pid).transactions.length = s.transactions.length ∧
     (resolve_pos s pid).cards.length = s.cards.length) ∧
    (∀ (j : Nat) (p0 : Pos), s.poses[j]? = some p0 →
      (p0.id = pid →
        (resolve_pos s pid).poses[j]? = some { p0 with compromised := false }) ∧
      (p0.id ≠ pid → (resolve_pos s pid).poses[j]? = some p0)) ∧
    (∀ (j : Nat) (t0 : Transaction), s.transactions[j]? = some t0 →
      (t0.posId = pid →
        (resolve_pos s pid).transactions[j]? = some { t0 with fraudReported := false }) ∧
      (t0.posId ≠ pid → (resolve_pos s pid).transactions[j]? = some t0)) ∧
    (∀ (j : Nat) (c0 : Card), s.cards[j]? = some c0 →
      ((∃ t ∈ s.transactions, t.posId = pid ∧ t.cardId = c0.id) →
        (resolve_pos s pid).cards[j]? = some { c0 with compromised := false }) ∧
      ((¬ ∃ t ∈ s.transactions, t.posId = pid ∧ t.cardId = c0.id) →
        (resolve_pos s pid).cards[j]? = some c0)) := by
  unfold resolve_pos
  rw [if_pos hp]
  refine ⟨⟨by simp, by simp, by simp⟩, ?_, ?_, ?_⟩
  · intro j p0 hx
    constructor <;> intro h0 <;> rw [List.getElem?_map, hx] <;> simp [h0]
  · intro j t0 hx
    constructor <;> intro h0 <;> rw [List.getElem?_map, hx] <;> simp [h0]
  · intro j c0 hx
    constructor <;> intro h0
    · have hB : s.transactions.any (fun t => t.posId == pid && t.cardId == c0.id) = true := by
        simp only [List.any_eq_true, Bool.and_eq_true, beq_iff_eq]
        obtain ⟨t, ht, h1, h2⟩ := h0
        exact ⟨t, ht, h1, h2⟩
      rw [List.getElem?_map, hx, Option.map_some', if_pos hB]
    · have hB : s.transactions.any (fun t => t.posId == pid && t.cardId == c0.id) = false := by
        rw [List.any_eq_false]
        intro t ht hcontra
        apply h0
        simp only [Bool.and_eq_true, beq_iff_eq] at hcontra
        exact ⟨t, ht, hcontra.1, hcontra.2⟩
      rw [List.getElem?_map, hx, Option.map_some', if_neg (by simp [hB])]

/-- C5 witness: on a store with one transaction at POS 0, the remediation
rewrites that transaction to `fraudReported = false` in place. -/
theorem resolve_pos_exact_effect_witness :
    (resolve_pos
        { cards := [{ id := 0, compromised := true }],
          poses := [{ id := 0, compromised := true }],
          transactions := [{ id := 0, cardId := 0, posId := 0, fraudReported := true }] }
        0).transactions[0]? =
      some { id := 0, cardId := 0, posId := 0, fraudReported := false } :=
  ((resolve_pos_exact_effect
      { cards := [{ id := 0, compromised := true }],
        poses := [{ id := 0, compromised := true }],
        transactions := [{ id := 0, cardId := 0, posId := 0, fraudReported := true }] }
      0 (by decide)).2.2.1 0
    { id := 0, cardId := 0, posId := 0, fraudReported := true } rfl).1 rfl

/-- C6: every pair returned by `get_compromised_pos` has a count strictly
greater than `1` — the count of a POS id being the number of pattern rows
`(t1, t2)` with `t1.fraudReported = true`, `t1` and `t2` sharing a card via
`Using`, `t1` distinct from `t2`, and `t2` linked to that POS via `At` — and
the returned sequence is sorted in descending order of count. -/
theorem get_compromised_pos_spec (s : GraphState) :
    (∀ pr ∈ get_compromised_pos s, 1 < pr.2 ∧ pr.2 = connected_frauds s pr.1) ∧
    List.Sorted countGE (get_compromised_pos s) := by
  constructor
  · intro pr hpr
    simp only [get_compromised_pos, List.mem_insertionSort, List.mem_filter] at hpr
    obtain ⟨hmem, hgt⟩ := hpr
    obtain ⟨pid, _, rfl⟩ := List.mem_map.mp hmem
    exact ⟨by simpa using hgt, rfl⟩
  · exact List.sorted_insertionSort countGE _

/-- C6 witness: two fraud-reported transactions sharing card 0 at POS 0 give
the returned pair `(0, 2)`: count `2 > 1`, matching `connected_frauds`. -/
theorem get_compromised_pos_spec_witness :
    1 < ((0, 2) : Nat × Nat).2 ∧
      ((0, 2) : Nat × Nat).2 =
        connected_frauds
          { cards := [{ id := 0, compromised := true }],
            poses := [{ id := 0, compromised := true }],
            transactions := [{ id := 0, cardId := 0, posId := 0, fraudReported := true },
                             { id := 1, cardId := 0, posId := 0, fraudReported := true }] }
          ((0, 2) : Nat × Nat).1 :=
  (get_compromised_pos_spec
      { cards := [{ id := 0, compromised := true }],
        poses := [{ id := 0, compromised := true }],
        transactions := [{ id := 0, cardId := 0, posId := 0, fraudReported := true },
                         { id := 1, cardId := 0, posId := 0, fraudReported := true }] }).1
    (0, 2) (by decide)

/-- C7: `get_fraudulent_transactions` returns exactly the ids of the
transactions whose `fraudReported` flag is true: an id is in the result iff
some transaction in the store carries it with `fraudReported = true`.  The
function is total — an empty result is an ordinary value, not an error. -/
theorem get_fraudulent_transactions_spec (s : GraphState) :
    ∀ i, i ∈ get_fraudulent_transactions s ↔
      ∃ t ∈ s.transactions, t.fraudReported = true ∧ t.id = i := by
  intro i
  simp only [get_fraudulent_transactions, List.mem_map, List.mem_filter]
  constructor
  · rintro ⟨t, ⟨ht, hf⟩, rfl⟩
    exact ⟨t, ht, hf, rfl⟩
  · rintro ⟨t, ht, hf, rfl⟩
    exact ⟨t, ⟨ht, hf⟩, rfl⟩

end CardFraud
